import Mathlib

/-!
Verification of the workflow-graph execution engine described by the
repository's specification, together with shallow embeddings of the
example workflows found in the repository's Python sources
(`simple_linear_workflow.py`, `parallel_workflow.py`,
`conditional_workflow.py`, `05_langgraph_foundation.py`,
`streamlit_blog_app.py`).

The engine itself (StateGraph / compile / invoke) is not part of the
repository's sources (the examples call into the external `langgraph`
library), so the engine is modelled from the specification: a
breadth-first superstep execution model with a frontier of scheduled
nodes, reducer-driven merging of per-node partial updates, conditional
routing through label maps, and a configurable superstep ceiling.
Node bodies, routers, state shapes and graph wirings are translated
directly from the Python sources.
-/

/-- Runtime errors of the execution engine.  Modelled from the spec:
`MaxStepsExceededError` (likely-infinite cycle), `UndefinedRouteLabelError`
(router returned a label absent from its table) and `NodeExecutionError`
(node lookup or body failure). -/
inductive ExecError where
  | maxStepsExceeded : ExecError
  | undefinedRouteLabel : String → String → ExecError
  | nodeExecution : String → ExecError
deriving Repr, DecidableEq

/-- Build-time errors.  Modelled from the spec's GraphValidator error
taxonomy. -/
inductive BuildError where
  | noEntryPoint : BuildError
  | unknownNode : BuildError
  | danglingEdgeTarget : BuildError
  | ambiguousRouting : BuildError
  | unreachableNode : BuildError
deriving Repr, DecidableEq

/-- Sentinel entry marker.  Modelled from the spec: `START` is a sentinel
name, not a true node. -/
def START : String := "__start__"

/-- Sentinel terminal marker.  Modelled from the spec: `END` is a sentinel
name, not a true node. -/
def END : String := "__end__"

/-- A conditional edge: source node, router callable and a fixed
label-to-target table.  Modelled from the spec's Edge data model. -/
structure CondEdge (σ : Type) where
  source : String
  router : σ → String
  labelMap : List (String × String)

/-- A declared workflow graph over state type `σ` and partial-update type
`υ`: node registry, plain edges, conditional edges, and the reducer-driven
merge of one partial update into a state.  Modelled from the spec's
GraphDefinition together with its StateSchema reducers (the `applyUpdate`
field is the per-example reducer table: REPLACE for plain fields, APPEND
for annotated sequence fields). -/
structure Graph (σ υ : Type) where
  nodes : List (String × (σ → υ))
  edges : List (String × String)
  conds : List (CondEdge σ)
  applyUpdate : σ → υ → σ

/-- Targets of the plain edges leaving node `n`. -/
def plainTargets {σ υ : Type} (g : Graph σ υ) (n : String) : List String :=
  (g.edges.filter (fun e => e.1 == n)).map Prod.snd

/-- The conditional edge registered for source `n`, if any. -/
def findCond {σ υ : Type} (g : Graph σ υ) (n : String) : Option (CondEdge σ) :=
  g.conds.find? (fun c => c.source == n)

/-- Routing phase for a single node.  Modelled from the spec: a plain edge
gives its targets; a conditional edge invokes the router on the
just-merged state and looks the returned label up in the label map,
failing with `UndefinedRouteLabelError` when the label is absent. -/
def routeNode {σ υ : Type} (g : Graph σ υ) (n : String) (s : σ) :
    Except ExecError (List String) :=
  match findCond g n with
  | some c =>
    match c.labelMap.lookup (c.router s) with
    | some t => .ok [t]
    | none => .error (.undefinedRouteLabel n (c.router s))
  | none => .ok (plainTargets g n)

/-- Execute a single node body on the superstep's base state. -/
def runNode {σ υ : Type} (g : Graph σ υ) (n : String) (s : σ) :
    Except ExecError υ :=
  match g.nodes.lookup n with
  | some body => .ok (body s)
  | none => .error (.nodeExecution n)

/-- Collect the partial updates of every frontier node, each invoked on
the state as of the start of the superstep. -/
def collectUpdates {σ υ : Type} (g : Graph σ υ) :
    List String → σ → Except ExecError (List υ)
  | [], _ => .ok []
  | n :: rest, s =>
    match runNode g n s with
    | .error e => .error e
    | .ok u =>
      match collectUpdates g rest s with
      | .error e => .error e
      | .ok us => .ok (u :: us)

/-- Merge phase: apply every collected partial update to the superstep's
base state in frontier-iteration order, via the graph's reducers. -/
def mergeAll {σ υ : Type} (g : Graph σ υ) (s : σ) (us : List υ) : σ :=
  us.foldl g.applyUpdate s

/-- Resolve the outgoing transition of every frontier node against the
just-merged state, concatenating the resolved targets. -/
def routeAll {σ υ : Type} (g : Graph σ υ) :
    List String → σ → Except ExecError (List String)
  | [], _ => .ok []
  | n :: rest, s =>
    match routeNode g n s with
    | .error e => .error e
    | .ok ts =>
      match routeAll g rest s with
      | .error e => .error e
      | .ok more => .ok (ts ++ more)

/-- Deduplicate the resolved next-names and drop the terminal marker.
Modelled from the spec: the next frontier is the deduplicated union of
the resolved targets with `END` targets removed. -/
def cleanFrontier (l : List String) : List String :=
  l.eraseDups.filter (fun n => n != END)

/-- One superstep: run every frontier node on the common base state,
merge all the collected deltas, then resolve every frontier node's
outgoing transition against the merged state. -/
def superstep {σ υ : Type} (g : Graph σ υ) (frontier : List String) (s : σ) :
    Except ExecError (List String × σ) :=
  match collectUpdates g frontier s with
  | .error e => .error e
  | .ok us =>
    match routeAll g frontier (mergeAll g s us) with
    | .error e => .error e
    | .ok nxt => .ok (cleanFrontier nxt, mergeAll g s us)

/-- The superstep loop.  The loop ends when the frontier becomes empty;
when the fuel (the configured superstep ceiling) is exhausted while the
frontier is still nonempty the run aborts with `MaxStepsExceededError`.
Total by construction (structural recursion on the fuel). -/
def run {σ υ : Type} (g : Graph σ υ) :
    Nat → List String → σ → Except ExecError σ
  | _, [], s => .ok s
  | 0, _ :: _, _ => .error .maxStepsExceeded
  | fuel + 1, n :: rest, s =>
    match superstep g (n :: rest) s with
    | .error e => .error e
    | .ok (f2, s2) => run g fuel f2 s2

/-- Invoke the workflow on an initial state.  The initial frontier is the
set of targets of `START` (a conditional edge from `START` is resolved
immediately against the initial state); the superstep loop then runs
under the given ceiling. -/
def invoke {σ υ : Type} (g : Graph σ υ) (ceiling : Nat) (s : σ) :
    Except ExecError σ :=
  match routeNode g START s with
  | .error e => .error e
  | .ok f0 => run g ceiling (cleanFrontier f0) s

/-- Recommended default superstep ceiling, a few hundred per the spec. -/
def defaultCeiling : Nat := 200

/-- Names of the registered nodes. -/
def nodeNames {σ υ : Type} (g : Graph σ υ) : List String :=
  g.nodes.map Prod.fst

/-- A name is known when it is a registered node or a sentinel marker. -/
def isKnown {σ υ : Type} (g : Graph σ υ) (n : String) : Bool :=
  n == START || n == END || (nodeNames g).contains n

/-- The declared structure of the conditional edges: source name and
label map of each, with the router callables dropped.  This is all a
static validator can see of a conditional edge. -/
def condStruct {σ υ : Type} (g : Graph σ υ) :
    List (String × List (String × String)) :=
  g.conds.map (fun c => (c.source, c.labelMap))

/-- All statically declared targets leaving a node. -/
def targetsOf {σ υ : Type} (g : Graph σ υ) (n : String) : List String :=
  plainTargets g n ++
    (((condStruct g).filter (fun c => c.1 == n)).map
      (fun c => c.2.map Prod.snd)).flatten

/-- One breadth-first expansion step of the reachable-name set. -/
def reachStep {σ υ : Type} (g : Graph σ υ) (acc : List String) : List String :=
  (acc ++ (acc.map (targetsOf g)).flatten).eraseDups

/-- Iterated expansion of the reachable-name set from `START`. -/
def reachIter {σ υ : Type} (g : Graph σ υ) : Nat → List String
  | 0 => [START]
  | k + 1 => reachStep g (reachIter g k)

/-- Every name reachable from `START` through declared edges. -/
def reachableSet {σ υ : Type} (g : Graph σ υ) : List String :=
  reachIter g (g.nodes.length + 1)

/-- Static validation.  Modelled from the spec's GraphValidator: entry
edge present, all edge endpoints known, label maps non-empty with
existing targets, no node with both plain and conditional outgoing
edges, and every node reachable from `START`.  The validator reads only
the declared structure; router callables are never invoked, so router
behavior cannot fail compilation. -/
def validate {σ υ : Type} (g : Graph σ υ) : Except BuildError Unit :=
  if (targetsOf g START).isEmpty then .error .noEntryPoint
  else if !(g.edges.all (fun e => isKnown g e.1 && isKnown g e.2)) then
    .error .unknownNode
  else if !((condStruct g).all (fun c =>
      !c.2.isEmpty && (c.2.map Prod.snd).all (isKnown g))) then
    .error .danglingEdgeTarget
  else if (condStruct g).any (fun c => g.edges.any (fun e => e.1 == c.1)) then
    .error .ambiguousRouting
  else if !((nodeNames g).all (fun n => (reachableSet g).contains n)) then
    .error .unreachableNode
  else .ok ()

/-- Compilation: validate, then expose the (immutable) graph as the
executable workflow. -/
def compile {σ υ : Type} (g : Graph σ υ) : Except BuildError (Graph σ υ) :=
  match validate g with
  | .ok _ => .ok g
  | .error e => .error e

/-- The same declared graph with every conditional edge's router replaced
by an arbitrary alternative (keyed by the edge's source name) while the
declared structure — nodes, edges, sources and label maps — is kept.
Used to express that compilation never observes router behavior. -/
def withRouters {σ υ : Type} (g : Graph σ υ) (rs : String → σ → String) :
    Graph σ υ :=
  ⟨g.nodes, g.edges,
   g.conds.map (fun c => ⟨c.source, rs c.source, c.labelMap⟩),
   g.applyUpdate⟩

/-- Replace-or-keep combination of one optional field of a partial
update with the existing optional field value (REPLACE reducer on a
possibly-absent mapping key). -/
def setField {α : Type} (old newv : Option α) : Option α :=
  match newv with
  | some v => some v
  | none => old

/-! Example 1, translated from `src/simple_linear_workflow.py`: state
`SimpleState` with fields `message` and `count`, nodes `a` and `b`,
edges `START → a → b → END`. -/

/-- State of the simple linear workflow (`SimpleState` in the source). -/
structure SimpleState where
  message : String
  count : Int
deriving Repr, DecidableEq

/-- Partial update over `SimpleState`: a field is `some` exactly when the
node's returned dictionary contains that key. -/
structure SimpleUpdate where
  message : Option String
  count : Option Int
deriving Repr, DecidableEq

/-- First node of the linear workflow: appends " Hello" to the message
and increments the count (translated from `node_a`). -/
def node_a (s : SimpleState) : SimpleUpdate :=
  ⟨some (s.message ++ " Hello"), some (s.count + 1)⟩

/-- Second node of the linear workflow: appends " from LangGraph!" to the
message and increments the count (translated from `node_b`). -/
def node_b (s : SimpleState) : SimpleUpdate :=
  ⟨some (s.message ++ " from LangGraph!"), some (s.count + 1)⟩

/-- REPLACE-reducer merge of a `SimpleUpdate` into a `SimpleState`
(the schema declares no APPEND field). -/
def applySimple (s : SimpleState) (u : SimpleUpdate) : SimpleState :=
  ⟨u.message.getD s.message, u.count.getD s.count⟩

/-- The simple linear graph: `START → a → b → END` (translated from
`simple_graph`). -/
def simpleGraph : Graph SimpleState SimpleUpdate :=
  ⟨[("a", node_a), ("b", node_b)],
   [(START, "a"), ("a", "b"), ("b", END)],
   [],
   applySimple⟩

/-! Example 2, translated from `src/parallel_workflow.py`: fan-out from
`START` to `square`, `cube`, `double`, fan-in to `summary`, then `END`. -/

/-- Value stored into the `summary` field by `summary_node` in
`src/parallel_workflow.py`: a dictionary carrying the input value and the
three computed fields. -/
structure SummaryVal where
  input_value : Int
  squared : Option Int
  cubed : Option Int
  doubled : Option Int
deriving Repr, DecidableEq

/-- State of the parallel workflow (`ParallelState` in the source).  A
field is `none` while its dictionary key has not yet been written. -/
structure ParallelState where
  input_value : Int
  squared : Option Int
  cubed : Option Int
  doubled : Option Int
  summary : Option SummaryVal
deriving Repr, DecidableEq

/-- Partial update over `ParallelState`. -/
structure ParallelUpdate where
  input_value : Option Int
  squared : Option Int
  cubed : Option Int
  doubled : Option Int
  summary : Option SummaryVal
deriving Repr, DecidableEq

/-- Squares the input value (translated from `square_node`). -/
def square_node (s : ParallelState) : ParallelUpdate :=
  ⟨none, some (s.input_value ^ 2), none, none, none⟩

/-- Cubes the input value (translated from `cube_node`). -/
def cube_node (s : ParallelState) : ParallelUpdate :=
  ⟨none, none, some (s.input_value ^ 3), none, none⟩

/-- Doubles the input value (translated from `double_node`). -/
def double_node (s : ParallelState) : ParallelUpdate :=
  ⟨none, none, none, some (s.input_value * 2), none⟩

/-- Builds the summary dictionary from the merged state (translated from
`summary_node`). -/
def summary_node (s : ParallelState) : ParallelUpdate :=
  ⟨none, none, none, none, some ⟨s.input_value, s.squared, s.cubed, s.doubled⟩⟩

/-- REPLACE-reducer merge of a `ParallelUpdate` into a `ParallelState`. -/
def applyParallel (s : ParallelState) (u : ParallelUpdate) : ParallelState :=
  ⟨u.input_value.getD s.input_value, setField s.squared u.squared,
   setField s.cubed u.cubed, setField s.doubled u.doubled,
   setField s.summary u.summary⟩

/-- The fan-out/fan-in graph with the three `START` edges declared in the
given order (the frontier-iteration order of the first superstep).
Translated from `parallel_graph`, whose declared order is
`square`, `cube`, `double`. -/
def parallelGraphOrd (order : List String) : Graph ParallelState ParallelUpdate :=
  ⟨[("square", square_node), ("cube", cube_node), ("double", double_node),
    ("summary", summary_node)],
   order.map (fun n => (START, n)) ++
     [("square", "summary"), ("cube", "summary"), ("double", "summary"),
      ("summary", END)],
   [],
   applyParallel⟩

/-- The fan-out/fan-in graph exactly as declared in the source. -/
def parallelGraph : Graph ParallelState ParallelUpdate :=
  parallelGraphOrd ["square", "cube", "double"]

/-- Initial state of the parallel example: `invoke({"input_value": 5})`. -/
def parallelInit : ParallelState := ⟨5, none, none, none, none⟩

/-! Example 3, translated from `src/conditional_workflow.py`: a
`categorize` node followed by a conditional edge routing to one of the
`negative`, `zero`, `positive` handler nodes. -/

/-- State of the conditional workflow (`ConditionalState` in the
source).  `category` and `result` are `none` while absent. -/
structure CondState where
  number : Int
  category : Option String
  result : Option String
deriving Repr, DecidableEq

/-- Partial update over `CondState`. -/
structure CondUpdate where
  number : Option Int
  category : Option String
  result : Option String
deriving Repr, DecidableEq

/-- Classifies the number as negative, zero or positive (translated from
`categorize_node`). -/
def categorize_node (s : CondState) : CondUpdate :=
  ⟨none,
   some (if s.number < 0 then "negative"
         else if s.number = 0 then "zero" else "positive"),
   none⟩

/-- Handler for negative numbers (translated from `handle_negative`). -/
def handle_negative (s : CondState) : CondUpdate :=
  ⟨none, none, some (toString s.number ++ " is negative")⟩

/-- Handler for zero (translated from `handle_zero`). -/
def handle_zero (_ : CondState) : CondUpdate :=
  ⟨none, none, some "Number is zero"⟩

/-- Handler for positive numbers (translated from `handle_positive`). -/
def handle_positive (s : CondState) : CondUpdate :=
  ⟨none, none, some (toString s.number ++ " is positive")⟩

/-- Router of the conditional edge: returns the stored category
(translated from `route_by_category`, which reads `state["category"]`). -/
def route_by_category (s : CondState) : String :=
  s.category.getD ""

/-- REPLACE-reducer merge of a `CondUpdate` into a `CondState`. -/
def applyCond (s : CondState) (u : CondUpdate) : CondState :=
  ⟨u.number.getD s.number, setField s.category u.category,
   setField s.result u.result⟩

/-- The conditional-routing graph (translated from `conditional_graph`):
`START → categorize`, a conditional edge on `categorize` with the label
map `negative/zero/positive`, and plain edges from every handler to
`END`. -/
def condGraph : Graph CondState CondUpdate :=
  ⟨[("categorize", categorize_node), ("negative", handle_negative),
    ("zero", handle_zero), ("positive", handle_positive)],
   [(START, "categorize"), ("negative", END), ("zero", END),
    ("positive", END)],
   [⟨"categorize", route_by_category,
     [("negative", "negative"), ("zero", "zero"), ("positive", "positive")]⟩],
   applyCond⟩

/-! Example 4, translated from `src/05_langgraph_foundation.py` section 6:
the accumulator state whose `messages` field is declared with the
`operator.add` (APPEND) reducer, with three message-adding nodes chained
`START → msg1 → msg2 → msg3 → END`. -/

/-- State with an APPEND-reduced `messages` field (`AccumulatorState` in
the source). -/
structure AccState where
  messages : List String
  count : Int
deriving Repr, DecidableEq

/-- Partial update over `AccState`. -/
structure AccUpdate where
  messages : Option (List String)
  count : Option Int
deriving Repr, DecidableEq

/-- Adds the first message (translated from `add_message_1`). -/
def add_message_1 (_ : AccState) : AccUpdate :=
  ⟨some ["First message"], some 1⟩

/-- Adds the second message (translated from `add_message_2`). -/
def add_message_2 (_ : AccState) : AccUpdate :=
  ⟨some ["Second message"], some 2⟩

/-- Adds the third message (translated from `add_message_3`). -/
def add_message_3 (_ : AccState) : AccUpdate :=
  ⟨some ["Third message"], some 3⟩

/-- Reducer-driven merge for `AccState`: `messages` uses the APPEND
reducer (`operator.add` on lists), `count` uses REPLACE. -/
def applyAcc (s : AccState) (u : AccUpdate) : AccState :=
  ⟨s.messages ++ u.messages.getD [], u.count.getD s.count⟩

/-- The accumulator graph (translated from `accumulator_graph`). -/
def accGraph : Graph AccState AccUpdate :=
  ⟨[("msg1", add_message_1), ("msg2", add_message_2), ("msg3", add_message_3)],
   [(START, "msg1"), ("msg1", "msg2"), ("msg2", "msg3"), ("msg3", END)],
   [],
   applyAcc⟩

/-- The list contributed by one `AccUpdate` to the APPEND-reduced
`messages` field (the empty contribution when the node did not touch the
field). -/
def accContrib (u : AccUpdate) : List String :=
  u.messages.getD []

/-! Example 5, translated from `src/05_langgraph_foundation.py` section 7:
the loop graph, a single `increment` node with the conditional edge
`{"continue": "increment", "end": END}` driven by
`counter < max_iterations`. -/

/-- State of the loop workflow (`LoopState` in the source); `results` is
declared with the `operator.add` (APPEND) reducer. -/
structure LoopState where
  counter : Int
  max_iterations : Int
  results : List Int
deriving Repr, DecidableEq

/-- Partial update over `LoopState`. -/
structure LoopUpdate where
  counter : Option Int
  max_iterations : Option Int
  results : Option (List Int)
deriving Repr, DecidableEq

/-- Increments the counter and contributes the new counter value to the
APPEND-reduced `results` field (translated from `increment_node`). -/
def increment_node (s : LoopState) : LoopUpdate :=
  ⟨some (s.counter + 1), none, some [s.counter + 1]⟩

/-- Router of the loop's conditional edge: continue while
`counter < max_iterations` (translated from `should_continue`). -/
def should_continue (s : LoopState) : String :=
  if s.counter < s.max_iterations then "continue" else "end"

/-- Reducer-driven merge for `LoopState`: `counter` and `max_iterations`
use REPLACE, `results` uses APPEND. -/
def applyLoop (s : LoopState) (u : LoopUpdate) : LoopState :=
  ⟨u.counter.getD s.counter, u.max_iterations.getD s.max_iterations,
   s.results ++ u.results.getD []⟩

/-- The loop graph (translated from `loop_graph`): `START → increment`
and the conditional edge `{"continue": "increment", "end": END}`. -/
def loopGraph : Graph LoopState LoopUpdate :=
  ⟨[("increment", increment_node)],
   [(START, "increment")],
   [⟨"increment", should_continue, [("continue", "increment"), ("end", END)]⟩],
   applyLoop⟩

/-- A partial update touching no field. -/
def emptyLoopUpdate : LoopUpdate := ⟨none, none, none⟩

/-- Modelled from the spec: the termination-guard scenario of a graph
with a conditional edge that always routes back to itself
(`{"continue": "self"}` with no path to `END`), used to exhibit the
superstep ceiling. -/
def selfLoopGraph : Graph LoopState LoopUpdate :=
  ⟨[("self", fun _ => emptyLoopUpdate)],
   [(START, "self")],
   [⟨"self", fun _ => "continue", [("continue", "self")]⟩],
   applyLoop⟩

/-- Modelled from the spec: a routing-completeness scenario — the
conditional graph of `src/conditional_workflow.py` with the `zero` label
(which the router is documented to be able to return) deliberately
missing from the conditional-edge label map.  The validator cannot see
router behavior, so this graph must compile and only fail at runtime. -/
def incompleteCondGraph : Graph CondState CondUpdate :=
  ⟨[("categorize", categorize_node), ("negative", handle_negative),
    ("positive", handle_positive)],
   [(START, "categorize"), ("negative", END), ("positive", END)],
   [⟨"categorize", route_by_category,
     [("negative", "negative"), ("positive", "positive")]⟩],
   applyCond⟩

/-! Nodes of `src/streamlit_blog_app.py`.  Unlike every engine-run
example above, these bodies assign into the received state dictionary
(`state["outline"] = outline`) and then return that same dictionary, so
the object the caller passed in is changed by the call.  Each function
below denotes the value of that shared dictionary after the call (which
is also the returned value).  The external text-generation model is
abstracted as an oracle from prompt strings to reply strings. -/

/-- A permutation of an explicit three-element list is one of its six
arrangements. -/
theorem perm_three {α : Type} {o : List α} {a b c : α} (h : o.Perm [a, b, c]) :
    o = [a, b, c] ∨ o = [a, c, b] ∨ o = [b, a, c] ∨ o = [b, c, a] ∨
    o = [c, a, b] ∨ o = [c, b, a] := by
  obtain ⟨x, y, z, rfl⟩ : ∃ x y z, o = [x, y, z] := by
    have hl := h.length_eq
    match o, hl with
    | [x, y, z], _ => exact ⟨x, y, z, rfl⟩
  have hx : x ∈ [a, b, c] := h.subset (by simp)
  simp only [List.mem_cons, List.mem_singleton, List.not_mem_nil, or_false] at hx
  rcases hx with rfl | rfl | rfl
  · have h2 : [y, z].Perm [b, c] := h.cons_inv
    have hy : y ∈ [b, c] := h2.subset (by simp)
    simp only [List.mem_cons, List.mem_singleton, List.not_mem_nil, or_false] at hy
    rcases hy with rfl | rfl
    · have h3 : [z].Perm [c] := h2.cons_inv
      have := List.perm_singleton.mp h3
      injection this with h4 _
      subst h4
      exact Or.inl rfl
    · have h3 : [z].Perm [b] := (h2.trans (List.Perm.swap y b [])).cons_inv
      have := List.perm_singleton.mp h3
      injection this with h4 _
      subst h4
      exact Or.inr (Or.inl rfl)
  · have h2 : [y, z].Perm [a, c] := (h.trans (List.Perm.swap x a [c])).cons_inv
    have hy : y ∈ [a, c] := h2.subset (by simp)
    simp only [List.mem_cons, List.mem_singleton, List.not_mem_nil, or_false] at hy
    rcases hy with rfl | rfl
    · have h3 : [z].Perm [c] := h2.cons_inv
      have := List.perm_singleton.mp h3
      injection this with h4 _
      subst h4
      exact Or.inr (Or.inr (Or.inl rfl))
    · have h3 : [z].Perm [a] := (h2.trans (List.Perm.swap y a [])).cons_inv
      have := List.perm_singleton.mp h3
      injection this with h4 _
      subst h4
      exact Or.inr (Or.inr (Or.inr (Or.inl rfl)))
  · have h2 : [y, z].Perm [a, b] :=
      (h.trans ((List.Perm.cons a (List.Perm.swap x b [])).trans
        (List.Perm.swap x a [b]))).cons_inv
    have hy : y ∈ [a, b] := h2.subset (by simp)
    simp only [List.mem_cons, List.mem_singleton, List.not_mem_nil, or_false] at hy
    rcases hy with rfl | rfl
    · have h3 : [z].Perm [b] := h2.cons_inv
      have := List.perm_singleton.mp h3
      injection this with h4 _
      subst h4
      exact Or.inr (Or.inr (Or.inr (Or.inr (Or.inl rfl))))
    · have h3 : [z].Perm [a] := (h2.trans (List.Perm.swap y a [])).cons_inv
      have := List.perm_singleton.mp h3
      injection this with h4 _
      subst h4
      exact Or.inr (Or.inr (Or.inr (Or.inr (Or.inr rfl))))

/-- If an invariant forces every superstep to succeed with a nonempty
next frontier, the superstep loop exhausts any fuel and aborts with
`MaxStepsExceededError`. -/
theorem run_diverges_of_invariant {σ υ : Type} (g : Graph σ υ)
    (I : List String → σ → Prop)
    (hne : ∀ f s, I f s → f ≠ [])
    (hstep : ∀ f s, I f s →
      ∃ p : List String × σ, superstep g f s = .ok p ∧ I p.1 p.2) :
    ∀ (fuel : Nat) (f : List String) (s : σ), I f s →
      run g fuel f s = .error .maxStepsExceeded := by
  intro fuel
  induction fuel with
  | zero =>
    intro f s hI
    match f, hne f s hI with
    | n :: rest, _ => rfl
  | succ k ih =>
    intro f s hI
    obtain ⟨⟨f2, s2⟩, heq, hI2⟩ := hstep f s hI
    match f, hne f s hI, heq with
    | n :: rest, _, heq =>
      simp only [run]
      rw [heq]
      exact ih f2 s2 hI2

/-- Unfolded form of the merged value of the APPEND-reduced `messages`
field: the base value followed by every contribution in order. -/
theorem mergeAll_acc_messages (us : List AccUpdate) (s : AccState) :
    (mergeAll accGraph s us).messages = s.messages ++ us.flatMap accContrib := by
  induction us generalizing s with
  | nil => simp [mergeAll]
  | cons u rest ih =>
    show (mergeAll accGraph (applyAcc s u) rest).messages = _
    rw [ih (applyAcc s u)]
    simp [applyAcc, accContrib, List.flatMap_cons, List.append_assoc]

/-- Replacing the routers of a graph leaves its declared conditional-edge
structure unchanged. -/
theorem condStruct_withRouters {σ υ : Type} (g : Graph σ υ)
    (rs : String → σ → String) :
    condStruct (withRouters g rs) = condStruct g := by
  show ((g.conds.map _).map _ : List (String × List (String × String))) = _
  rw [List.map_map]
  rfl

/-- Replacing the routers of a graph leaves its statically declared
targets unchanged. -/
theorem targetsOf_withRouters {σ υ : Type} (g : Graph σ υ)
    (rs : String → σ → String) (n : String) :
    targetsOf (withRouters g rs) n = targetsOf g n := by
  unfold targetsOf
  rw [condStruct_withRouters]
  rfl

/-- Replacing the routers of a graph leaves the reachable-name iteration
unchanged. -/
theorem reachIter_withRouters {σ υ : Type} (g : Graph σ υ)
    (rs : String → σ → String) (k : Nat) :
    reachIter (withRouters g rs) k = reachIter g k := by
  induction k with
  | zero => rfl
  | succ k ih =>
    show reachStep (withRouters g rs) (reachIter (withRouters g rs) k)
      = reachStep g (reachIter g k)
    rw [ih]
    unfold reachStep
    rw [funext (targetsOf_withRouters g rs)]

/-- Replacing the routers of a graph leaves validation unchanged: the
validator reads only the declared structure. -/
theorem validate_withRouters {σ υ : Type} (g : Graph σ υ)
    (rs : String → σ → String) :
    validate (withRouters g rs) = validate g := by
  have hr : reachableSet (withRouters g rs) = reachableSet g := by
    unfold reachableSet
    rw [reachIter_withRouters]
    rfl
  unfold validate
  rw [funext (targetsOf_withRouters g rs), condStruct_withRouters, hr]
  rfl


/-! Claim theorems. -/

/-- C1 (counterexample): the sequential workflow invoked on
`{message: "", count: 0}` does not return `{message: " Hello World",
count: 2}` — node `b` appends " from LangGraph!", not " World". -/
theorem simple_linear_not_hello_world :
    invoke simpleGraph defaultCeiling ⟨"", 0⟩ ≠ .ok ⟨" Hello World", 2⟩ := by
  intro h
  rw [show invoke simpleGraph defaultCeiling ⟨"", 0⟩ =
      .ok ⟨" Hello from LangGraph!", 2⟩ from rfl] at h
  injection h with h2
  have h3 := congrArg SimpleState.message h2
  simp only at h3
  exact absurd h3 (by decide)

/-- C1 (amended): for the sequential graph `START → a → b → END`, where
node `a` appends " Hello" and increments `count` and node `b` appends
" from LangGraph!" and increments `count`, invoke on the initial state
`{message: "", count: 0}` returns the final state
`{message: " Hello from LangGraph!", count: 2}`. -/
theorem simple_linear_result :
    invoke simpleGraph defaultCeiling ⟨"", 0⟩ =
      .ok ⟨" Hello from LangGraph!", 2⟩ := rfl

/-- C2: for the fan-out/fan-in graph whose three independent nodes
compute the square, cube and double of `input_value` and converge into a
`summary` node, invoke on an initial state with `input_value = 5`
returns a final state containing `squared = 25`, `cubed = 125` and
`doubled = 10`, for every execution order of the three frontier nodes. -/
theorem parallel_fanout_values (order : List String)
    (h : order.Perm ["square", "cube", "double"]) :
    (invoke (parallelGraphOrd order) defaultCeiling parallelInit).map
      (fun s => (s.squared, s.cubed, s.doubled)) =
      .ok (some 25, some 125, some 10) := by
  rcases perm_three h with rfl | rfl | rfl | rfl | rfl | rfl <;> rfl

/-- C2 (witness): the fan-out result at the concrete frontier order
`cube`, `double`, `square`. -/
theorem parallel_fanout_values_witness :
    (invoke (parallelGraphOrd ["cube", "double", "square"]) defaultCeiling
        parallelInit).map (fun s => (s.squared, s.cubed, s.doubled)) =
      .ok (some 25, some 125, some 10) :=
  parallel_fanout_values ["cube", "double", "square"] (by decide)

/-- C3: for the conditional-routing graph, invoke on an initial state
with `number = -10` routes through the `negative` label to the
`negative` handler and returns a final state with
`result = "-10 is negative"`. -/
theorem conditional_negative_routing :
    routeNode condGraph "categorize"
        (applyCond ⟨-10, none, none⟩ (categorize_node ⟨-10, none, none⟩)) =
      .ok ["negative"]
    ∧ invoke condGraph defaultCeiling ⟨-10, none, none⟩ =
        .ok ⟨-10, some "negative", some "-10 is negative"⟩ :=
  ⟨rfl, rfl⟩

/-- C4: for the loop graph with the single `increment` node and the
conditional edge `{"continue": "increment", "end": END}` driven by
`counter < max_iterations`, invoke on the initial state
`{counter: 0, max_iterations: 5, results: []}` terminates with
`counter = 5` and the APPEND-reduced `results` field equal to
`[1, 2, 3, 4, 5]`. -/
theorem loop_workflow_result :
    invoke loopGraph defaultCeiling ⟨0, 5, []⟩ = .ok ⟨5, 5, [1, 2, 3, 4, 5]⟩ :=
  rfl

/-- C5: for every graph whose conditional routing never reaches `END` —
expressed by an invariant on frontier/state pairs that is preserved by
every superstep and keeps the frontier nonempty — invoke aborts with
`MaxStepsExceededError` under any configured ceiling instead of running
forever (the superstep loop itself is total by structural recursion on
the ceiling). -/
theorem invoke_never_end_max_steps {σ υ : Type} (g : Graph σ υ)
    (I : List String → σ → Prop)
    (hne : ∀ f s, I f s → f ≠ [])
    (hstep : ∀ f s, I f s →
      ∃ p : List String × σ, superstep g f s = .ok p ∧ I p.1 p.2)
    (c : Nat) (s : σ) (f0 : List String)
    (h0 : routeNode g START s = .ok f0)
    (hI : I (cleanFrontier f0) s) :
    invoke g c s = .error .maxStepsExceeded := by
  unfold invoke
  rw [h0]
  exact run_diverges_of_invariant g I hne hstep c (cleanFrontier f0) s hI

/-- C5 (witness): the self-loop graph whose conditional edge always
routes back to itself exhausts the default ceiling. -/
theorem invoke_never_end_max_steps_witness :
    invoke selfLoopGraph defaultCeiling ⟨0, 0, []⟩ =
      .error .maxStepsExceeded :=
  invoke_never_end_max_steps selfLoopGraph (fun f _ => f = ["self"])
    (fun f s h => by subst h; decide)
    (fun f s h => by
      subst h
      exact ⟨(["self"], applyLoop s emptyLoopUpdate), rfl, rfl⟩)
    defaultCeiling ⟨0, 0, []⟩ ["self"] rfl rfl

/-- C6: for every graph, compilation is independent of router behavior
(validation and compilation are unchanged under any replacement of the
routers, so a label map missing a label the router can return never
fails `compile`), and for every graph, routing a conditional edge fails
with `UndefinedRouteLabelError` exactly when the router's returned
label is absent from the label map and takes the mapped target whenever
it is present; instantiated on the categorize graph with the `zero`
label removed from its map: it compiles, invoke fails with
`UndefinedRouteLabelError` in the first superstep in which the router
returns the missing label (`number = 0`), and a present label routes to
its mapped target (`number = -10` reaches the `negative` handler). -/
theorem incomplete_label_map_runtime_error :
    (∀ (σ υ : Type) (g : Graph σ υ) (rs : String → σ → String),
        validate (withRouters g rs) = validate g)
    ∧ (∀ (σ υ : Type) (g : Graph σ υ) (rs : String → σ → String),
        compile (withRouters g rs) =
          (compile g).map (fun _ => withRouters g rs))
    ∧ (∀ (σ υ : Type) (g : Graph σ υ) (n : String) (c : CondEdge σ) (s : σ),
        findCond g n = some c →
          (c.labelMap.lookup (c.router s) = none →
            routeNode g n s = .error (.undefinedRouteLabel n (c.router s)))
          ∧ ∀ t, c.labelMap.lookup (c.router s) = some t →
              routeNode g n s = .ok [t])
    ∧ compile incompleteCondGraph = .ok incompleteCondGraph
    ∧ invoke incompleteCondGraph defaultCeiling ⟨0, none, none⟩ =
        .error (.undefinedRouteLabel "categorize" "zero")
    ∧ invoke incompleteCondGraph defaultCeiling ⟨-10, none, none⟩ =
        .ok ⟨-10, some "negative", some "-10 is negative"⟩ := by
  refine ⟨fun σ υ g rs => validate_withRouters g rs, ?_, ?_, rfl, rfl, rfl⟩
  · intro σ υ g rs
    unfold compile
    rw [validate_withRouters g rs]
    cases validate g <;> rfl
  · intro σ υ g n c s hfind
    constructor
    · intro hnone
      unfold routeNode
      rw [hfind]
      show (match c.labelMap.lookup (c.router s) with
            | some t => (Except.ok [t] : Except ExecError (List String))
            | none => .error (.undefinedRouteLabel n (c.router s))) = _
      rw [hnone]
    · intro t ht
      unfold routeNode
      rw [hfind]
      show (match c.labelMap.lookup (c.router s) with
            | some t => (Except.ok [t] : Except ExecError (List String))
            | none => .error (.undefinedRouteLabel n (c.router s))) = _
      rw [ht]

/-- C6 (witness): the general conjuncts applied to the incomplete-map
graph — validation unchanged under a router replacement, the missing
`zero` label failing, and the present `negative` label routing to its
target. -/
theorem incomplete_label_map_runtime_error_witness :
    validate (withRouters incompleteCondGraph (fun _ _ => "zero")) =
      validate incompleteCondGraph
    ∧ routeNode incompleteCondGraph "categorize" ⟨0, some "zero", none⟩ =
        .error (.undefinedRouteLabel "categorize" "zero")
    ∧ routeNode incompleteCondGraph "categorize" ⟨-10, some "negative", none⟩ =
        .ok ["negative"] :=
  ⟨incomplete_label_map_runtime_error.1 CondState CondUpdate
      incompleteCondGraph (fun _ _ => "zero"),
   (incomplete_label_map_runtime_error.2.2.1 CondState CondUpdate
      incompleteCondGraph "categorize"
      ⟨"categorize", route_by_category,
        [("negative", "negative"), ("positive", "positive")]⟩
      ⟨0, some "zero", none⟩ rfl).1 rfl,
   (incomplete_label_map_runtime_error.2.2.1 CondState CondUpdate
      incompleteCondGraph "categorize"
      ⟨"categorize", route_by_category,
        [("negative", "negative"), ("positive", "positive")]⟩
      ⟨-10, some "negative", none⟩ rfl).2 "negative" rfl⟩

/-- C7: when several collected updates each contribute a value to the
APPEND-reduced `messages` field in one merge phase, the merged field
equals the base value followed by the concatenation of all contributed
values — no contribution lost — and for any reordering of the collected
updates the merged field is a permutation (the same multiset) of the
original merge. -/
theorem append_reducer_no_loss (s : AccState) (us us2 : List AccUpdate)
    (h : us2.Perm us) :
    (mergeAll accGraph s us).messages = s.messages ++ us.flatMap accContrib
    ∧ (mergeAll accGraph s us2).messages.Perm (mergeAll accGraph s us).messages := by
  constructor
  · exact mergeAll_acc_messages us s
  · rw [mergeAll_acc_messages us s, mergeAll_acc_messages us2 s]
    exact List.Perm.append_left s.messages (h.flatMap_right accContrib)

/-- C7 (witness): the three contributions of the accumulator example's
nodes merge with no loss, in both frontier-iteration orders. -/
theorem append_reducer_no_loss_witness :
    (mergeAll accGraph ⟨[], 0⟩
        [⟨some ["First message"], some 1⟩, ⟨some ["Second message"], some 2⟩,
         ⟨some ["Third message"], some 3⟩]).messages =
      (⟨[], 0⟩ : AccState).messages ++
        ([⟨some ["First message"], some 1⟩, ⟨some ["Second message"], some 2⟩,
          ⟨some ["Third message"], some 3⟩] : List AccUpdate).flatMap accContrib
    ∧ (mergeAll accGraph ⟨[], 0⟩
        [⟨some ["Third message"], some 3⟩, ⟨some ["First message"], some 1⟩,
         ⟨some ["Second message"], some 2⟩]).messages.Perm
      (mergeAll accGraph ⟨[], 0⟩
        [⟨some ["First message"], some 1⟩, ⟨some ["Second message"], some 2⟩,
         ⟨some ["Third message"], some 3⟩]).messages :=
  append_reducer_no_loss ⟨[], 0⟩ _ _ (by decide)

/-- C8: for every graph with no conditional edges and no fan-out (each
node has at most one plain outgoing edge), two invocations of the same
compiled workflow on identical initial states return identical final
states (the engine is a pure function of the graph, ceiling and initial
state). -/
theorem plain_chain_deterministic {σ υ : Type} (g : Graph σ υ)
    (_hnc : g.conds = [])
    (_hnf : (g.edges.map Prod.fst).Nodup)
    (c : Nat) (s1 s2 : σ) (h : s1 = s2) :
    invoke g c s1 = invoke g c s2 := by
  rw [h]

/-- C8 (witness): determinism at the simple linear workflow. -/
theorem plain_chain_deterministic_witness :
    invoke simpleGraph defaultCeiling ⟨"", 0⟩ =
      invoke simpleGraph defaultCeiling ⟨"", 0⟩ :=
  plain_chain_deterministic simpleGraph rfl (by decide) defaultCeiling
    ⟨"", 0⟩ ⟨"", 0⟩ rfl

/-- C10: for every state, the label the categorize router returns on the
state produced by merging the categorize node's update is one of
`negative`, `zero`, `positive`, and the routing phase of the conditional
graph resolves it to the mapped target — the
`UndefinedRouteLabelError` branch is unreachable for this graph. -/
theorem categorize_router_label_defined (s : CondState) :
    route_by_category (applyCond s (categorize_node s)) ∈
      (["negative", "zero", "positive"] : List String)
    ∧ routeNode condGraph "categorize" (applyCond s (categorize_node s)) =
        .ok [route_by_category (applyCond s (categorize_node s))] := by
  by_cases h1 : s.number < 0
  · simp only [categorize_node, if_pos h1]
    exact ⟨List.Mem.head _, rfl⟩
  · by_cases h2 : s.number = 0
    · simp only [categorize_node, if_neg h1, if_pos h2]
      exact ⟨List.Mem.tail _ (List.Mem.head _), rfl⟩
    · simp only [categorize_node, if_neg h1, if_neg h2]
      exact ⟨List.Mem.tail _ (List.Mem.tail _ (List.Mem.head _)), rfl⟩
